import Mathlib

/-!
# fish-watcher: verification of the detection / clip-capture pipeline

Shallow embedding of the core components of the `fish-watcher` repository:
the rolling frame buffer (`src/buffer.py`), the clip recorder
(`src/recorder.py`), the detector set and detection coordinator
(`src/detector.py`), and the relevant fragment of the watch loop
(`src/watcher.py`).  Wall-clock times are modelled as rationals, pixel
data as grids of 8-bit channel values, and the effect of writing a video
file as an explicit write log returned by the recorder operations.
-/

namespace FishWatcher

/-! ## Python numeric helpers -/

/-- Python `int()` applied to a float/rational: truncation toward zero. -/
def pyInt (q : ℚ) : ℤ := if 0 ≤ q then ⌊q⌋ else ⌈q⌉

/-- Python 3 `round()` on a rational: banker's rounding (half to even). -/
def pyRound (q : ℚ) : ℤ :=
  if q - ⌊q⌋ = 1/2 then (if Even ⌊q⌋ then ⌊q⌋ else ⌊q⌋ + 1) else round q

/-- Python truthiness of an optional float: `None` and `0.0` are falsy. -/
def pyFalsyQ : Option ℚ → Bool
  | none => true
  | some v => v == 0

/-- Python truthiness of an optional int: `None` and `0` are falsy. -/
def pyFalsyZ : Option ℤ → Bool
  | none => true
  | some v => v == 0

/-- `np.mean` of a list of samples (exact rational arithmetic). -/
def npMean (l : List ℚ) : ℚ := l.sum / l.length

/-- The last `n` elements of a list (`l[-n:]` on a list of length ≥ n). -/
def lastN (n : ℕ) (l : List α) : List α := l.drop (l.length - n)

/-- Append to a `collections.deque` with `maxlen = m`: the result keeps
the last `m` elements, discarding from the left. -/
def dequeAppend (m : ℕ) (l : List α) (x : α) : List α :=
  let l' := l ++ [x]
  l'.drop (l'.length - m)

/-- `np.median` of a list of integer samples, as a rational (the average
of the two middle elements when the length is even). -/
def npMedianZ (l : List ℤ) : ℚ :=
  let s := l.mergeSort (· ≤ ·)
  if s.length % 2 = 1 then ((s.get? (s.length / 2)).getD 0 : ℤ)
  else (((s.get? (s.length / 2 - 1)).getD 0 + (s.get? (s.length / 2)).getD 0 : ℤ) : ℚ) / 2

/-! ## Times, frames, alerts -/

/-- Wall-clock time, in seconds. -/
abbrev Time := ℚ

/-- A BGR colour frame: a grid of (blue, green, red) 8-bit channel values. -/
abbrev Frame := List (List (ℕ × ℕ × ℕ))

/-- A grayscale image: a grid of 8-bit intensities. -/
abbrev Grid := List (List ℕ)

/-- A constant grayscale grid. -/
def constGrid (h w v : ℕ) : Grid := List.replicate h (List.replicate w v)

/-- A constant BGR frame. -/
def constFrame (h w : ℕ) (p : ℕ × ℕ × ℕ) : Frame := List.replicate h (List.replicate w p)

instance decEqFrame : DecidableEq Frame := inferInstance
instance decEqListFrame : DecidableEq (List Frame) := inferInstance
instance decEqWrite : DecidableEq (String × List Frame) := inferInstance
instance decEqWriteLog : DecidableEq (List (String × List Frame)) := inferInstance

/-- `AlertType` enumeration from `src/detector.py`. -/
inductive AlertType where
  | NO_MOTION | MOTION_SPIKE | FISH_FLOATING | FISH_BOTTOM | ERRATIC_SWIMMING
  | GASPING_SURFACE | AGGRESSION
  | COLOR_CHANGE | WATER_CLOUDY | ALGAE_GROWTH | WATER_LEVEL_DROP
  | FILTER_STOPPED | LIGHT_STUCK
  | SURFACE_ACTIVITY | HIDING_TOO_LONG | MISSED_FEEDING | CLUSTERING | LOW_ACTIVITY
  | INTERESTING_MOMENT | FEEDING_FRENZY | FISH_PLAYING | NEW_BEHAVIOR
deriving DecidableEq, Repr

/-- The `.value` string of each `AlertType` member. -/
def AlertType.value : AlertType → String
  | .NO_MOTION => "no_motion"
  | .MOTION_SPIKE => "motion_spike"
  | .FISH_FLOATING => "fish_floating"
  | .FISH_BOTTOM => "fish_stuck_bottom"
  | .ERRATIC_SWIMMING => "erratic_swimming"
  | .GASPING_SURFACE => "gasping_surface"
  | .AGGRESSION => "fish_aggression"
  | .COLOR_CHANGE => "color_change"
  | .WATER_CLOUDY => "water_cloudy"
  | .ALGAE_GROWTH => "algae_growth"
  | .WATER_LEVEL_DROP => "water_level_drop"
  | .FILTER_STOPPED => "filter_stopped"
  | .LIGHT_STUCK => "light_stuck"
  | .SURFACE_ACTIVITY => "surface_activity"
  | .HIDING_TOO_LONG => "hiding_too_long"
  | .MISSED_FEEDING => "missed_feeding"
  | .CLUSTERING => "fish_clustering"
  | .LOW_ACTIVITY => "low_activity"
  | .INTERESTING_MOMENT => "interesting_moment"
  | .FEEDING_FRENZY => "feeding_frenzy"
  | .FISH_PLAYING => "fish_playing"
  | .NEW_BEHAVIOR => "new_behavior"

/-- `Alert` dataclass from `src/detector.py`.  The `timestamp` default
`time.time()` is made explicit at each construction site. -/
structure Alert where
  type : AlertType
  message : String
  confidence : ℚ
  timestamp : Time
  frame : Option Frame := none
  is_cool_moment : Bool := false
deriving DecidableEq, Repr

/-- `DetectorConfig` dataclass from `src/detector.py` (the feeding-times
list is irrelevant to the claims and omitted from the embedding). -/
structure DetectorConfig where
  motion_sensitivity : ℤ := 50
  no_motion_threshold : ℤ := 300
  color_change_threshold : ℤ := 15
  surface_zone_percent : ℤ := 15
  bottom_zone_percent : ℤ := 15
  learn_baseline : Bool := true
  fish_count : ℤ := 0
deriving DecidableEq, Repr

/-! ## RollingBuffer (`src/buffer.py`) -/

/-- `BufferedFrame` dataclass. -/
structure BufferedFrame where
  frame : Frame
  timestamp : Time
  frame_number : ℕ
deriving DecidableEq, Repr

/-- `RollingBuffer` state: capacity, underlying deque and the running
sequence counter. -/
structure RollingBuffer where
  max_frames : ℕ
  buffer : List BufferedFrame
  frame_count : ℕ
deriving DecidableEq, Repr

/-- `RollingBuffer.__init__`: capacity `int(max_seconds * fps)`.  A
negative capacity makes `deque(maxlen=...)` raise, so construction fails
(`none`); every accepted construction has a nonnegative capacity. -/
def RollingBuffer.init (max_seconds : ℚ) (fps : ℕ) : Option RollingBuffer :=
  let m := pyInt (max_seconds * fps)
  if m < 0 then none
  else some { max_frames := m.toNat, buffer := [], frame_count := 0 }

/-- `RollingBuffer.add`: copy the frame, stamp it with the current time
and next sequence number, append to the deque (evicting from the left
beyond capacity), and advance the counter. -/
def RollingBuffer.add (rb : RollingBuffer) (now : Time) (frame : Frame) : RollingBuffer :=
  let buffered : BufferedFrame :=
    { frame := frame, timestamp := now, frame_number := rb.frame_count }
  { rb with
    buffer := dequeAppend rb.max_frames rb.buffer buffered
    frame_count := rb.frame_count + 1 }

/-- `RollingBuffer.get_all`: snapshot of the contents, oldest first. -/
def RollingBuffer.get_all (rb : RollingBuffer) : List BufferedFrame := rb.buffer

/-- `RollingBuffer.get_recent`: frames with `timestamp >= now - seconds`. -/
def RollingBuffer.get_recent (rb : RollingBuffer) (now : Time) (seconds : ℚ) :
    List BufferedFrame :=
  rb.buffer.filter (fun f => now - seconds ≤ f.timestamp)

/-- Feed a sequence of timed frames through `RollingBuffer.add`. -/
def RollingBuffer.addAll (rb : RollingBuffer) (l : List (Time × Frame)) : RollingBuffer :=
  l.foldl (fun b tf => b.add tf.1 tf.2) rb

/-! ## ClipRecorder (`src/recorder.py`)

The video-file sink (`cv2.VideoWriter`) is modelled as an explicit write
log: every write performed by an operation is returned as a
`(filepath, frames)` pair.  `time.strftime` is modelled by an abstract
timestamp-formatting function `fmt : Time → String`. -/

/-- `ClipRecorder` state. -/
structure ClipRecorder where
  output_dir : String
  pre_roll : ℚ
  post_roll : ℚ
  fps : ℕ
  format : String
  recording : Bool
  recording_start : Option Time
  current_frames : List Frame
  current_alert : Option Alert
deriving DecidableEq, Repr

/-- `ClipRecorder.__init__` (defaults from the source). -/
def ClipRecorder.init (output_dir : String := "./clips") (pre_roll : ℚ := 10)
    (post_roll : ℚ := 30) (fps : ℕ := 15) (format : String := "mp4") : ClipRecorder :=
  { output_dir := output_dir, pre_roll := pre_roll, post_roll := post_roll,
    fps := fps, format := format,
    recording := false, recording_start := none,
    current_frames := [], current_alert := none }

/-- The output filepath built by `ClipRecorder._save_clip`:
`<strftime timestamp>_<alert type value>.<format>` under `output_dir`. -/
def ClipRecorder.savePath (r : ClipRecorder) (fmt : Time → String) (now : Time) : String :=
  let alert_type := match r.current_alert with
    | some a => a.type.value
    | none => "unknown"
  r.output_dir ++ "/" ++ fmt now ++ "_" ++ alert_type ++ "." ++ r.format

/-- `ClipRecorder._save_clip`: returns the new state, the returned path
string, and the write log.  With no accumulated frames it writes
nothing, clears only the `recording` flag and returns `""`; otherwise it
writes the frame sequence, resets the frame list and alert, and returns
the path. -/
def ClipRecorder.saveClip (r : ClipRecorder) (fmt : Time → String) (now : Time) :
    ClipRecorder × String × List (String × List Frame) :=
  let filepath := r.savePath fmt now
  if r.current_frames = [] then
    ({ r with recording := false }, "", [])
  else
    ({ r with recording := false, current_frames := [], current_alert := none },
     filepath, [(filepath, r.current_frames)])

/-- `ClipRecorder.add_frame`: no-op returning `None` when not recording;
otherwise append a copy of the frame and, once
`elapsed = now - recording_start ≥ post_roll`, finalize via
`_save_clip` and return its path. -/
def ClipRecorder.add_frame (r : ClipRecorder) (fmt : Time → String) (now : Time)
    (frame : Frame) : ClipRecorder × Option String × List (String × List Frame) :=
  if r.recording = false then (r, none, [])
  else
    let r' := { r with current_frames := r.current_frames ++ [frame] }
    let elapsed := now - r.recording_start.getD 0
    if r'.post_roll ≤ elapsed then
      let (r'', path, writes) := r'.saveClip fmt now
      (r'', some path, writes)
    else
      (r', none, [])

/-- `ClipRecorder.start_recording`: no-op while already recording;
otherwise flag recording, stamp the start time, store the alert and seed
the frame list from the buffer's last `pre_roll` seconds. -/
def ClipRecorder.start_recording (r : ClipRecorder) (now : Time)
    (buffer : RollingBuffer) (alert : Alert) : ClipRecorder :=
  if r.recording then r
  else
    { r with
      recording := true
      recording_start := some now
      current_alert := some alert
      current_frames := (buffer.get_recent now r.pre_roll).map (·.frame) }

/-- Python tuple unpacking `a, b = v` applied to an `Optional[str]`
value, as done by the watch loop (`src/watcher.py`,
`clip_path, alert = self.recorder.add_frame(frame)`): unpacking `None`
raises a `TypeError`; unpacking a string succeeds only when it has
exactly two characters (each bound as a one-character string). -/
def pyUnpack2 : Option String → Except String (String × String)
  | none => .error "TypeError: cannot unpack non-iterable NoneType object"
  | some s =>
    if s.length = 2 then .ok (s.take 1, s.drop 1)
    else .error "ValueError: unexpected number of values to unpack"

instance decEqUnpack : DecidableEq (Except String (String × String)) := fun a b =>
  match a, b with
  | .error e₁, .error e₂ => decidable_of_iff (e₁ = e₂) (by simp)
  | .ok v₁, .ok v₂ => decidable_of_iff (v₁ = v₂) (by simp)
  | .error _, .ok _ => isFalse (by simp)
  | .ok _, .error _ => isFalse (by simp)

/-! ## MotionDetector (`src/detector.py`)

`cv2.cvtColor(..., COLOR_BGR2GRAY)` is embedded with OpenCV's exact
fixed-point coefficients.  `cv2.GaussianBlur` computes a transcendental
kernel in floating point and is therefore kept as an abstract parameter
`blur : Grid → Grid`; every theorem that touches it assumes only what
any normalized blur satisfies on the grids involved (a constant grid
blurs to itself). -/

/-- OpenCV BGR→gray conversion of one pixel:
`(B*1868 + G*9617 + R*4899 + 2^13) >> 14` (the fixed-point form of
`0.114 B + 0.587 G + 0.299 R`). -/
def grayPixel (p : ℕ × ℕ × ℕ) : ℕ :=
  (p.1 * 1868 + p.2.1 * 9617 + p.2.2 * 4899 + 8192) / 16384

/-- `cv2.cvtColor(frame, COLOR_BGR2GRAY)` over a whole frame. -/
def cvtGray (frame : Frame) : Grid := frame.map (List.map grayPixel)

/-- Sum of pixels of a grid. -/
def gridSum (g : Grid) : ℕ := (g.map List.sum).sum

/-- Number of pixels of a grid. -/
def gridSize (g : Grid) : ℕ := (g.map List.length).sum

/-- `cv2.absdiff` followed by `cv2.threshold(.., 25, 255, THRESH_BINARY)`
on two grids of equal shape: pixelwise 255 where `|a - b| > 25`, else 0. -/
def diffThresh (a b : Grid) : Grid :=
  (a.zip b).map (fun rr =>
    (rr.1.zip rr.2).map (fun pp =>
      if 25 < max pp.1 pp.2 - min pp.1 pp.2 then 255 else 0))

/-- `MotionDetector._compute_motion_level`:
`np.sum(thresh) / thresh.size / 255 * 100`, the percentage of changed
pixels. -/
def computeMotionLevel (prev gray : Grid) : ℚ :=
  let thresh := diffThresh prev gray
  (gridSum thresh : ℚ) / (gridSize thresh) / 255 * 100

/-- `MotionDetector` running state. -/
structure MotionState where
  prev_frame : Option Grid
  last_motion_time : Time
  motion_history : List ℚ
  baseline_motion : Option ℚ
deriving DecidableEq, Repr

/-- `MotionDetector.__init__` (construction at wall time `now`). -/
def MotionState.init (now : Time) : MotionState :=
  { prev_frame := none, last_motion_time := now,
    motion_history := [], baseline_motion := none }

/-- `MotionDetector._update_baseline`: once more than 100 samples exist
and `learn_baseline` is set, the baseline is the mean of the history. -/
def MotionState.update_baseline (cfg : DetectorConfig) (st : MotionState) : MotionState :=
  if cfg.learn_baseline ∧ 100 < st.motion_history.length then
    { st with baseline_motion := some (npMean st.motion_history) }
  else st

/-- `MotionDetector._check_motion_spikes`.  Note the source guard
`if not self.baseline_motion`, which treats a `0.0` baseline like a
missing one (Python falsiness). -/
def MotionState.check_motion_spikes (st : MotionState) (motion_level : ℚ)
    (frame : Frame) (now : Time) : List Alert :=
  if pyFalsyQ st.baseline_motion then []
  else
    let b := st.baseline_motion.getD 0
    if motion_level > b * 5 then
      [{ type := .ERRATIC_SWIMMING,
         message := "Possible erratic swimming detected!",
         confidence := min (motion_level / 30) 1,
         timestamp := now, frame := some frame }]
    else if motion_level > b * 3 then
      [{ type := .MOTION_SPIKE,
         message := "Unusual activity spike!",
         confidence := min (motion_level / 20) 1,
         timestamp := now, frame := some frame }]
    else []

/-- `MotionDetector._check_no_motion`. -/
def MotionState.check_no_motion (cfg : DetectorConfig) (st : MotionState)
    (frame : Frame) (now : Time) : List Alert :=
  let no_motion_duration := now - st.last_motion_time
  if no_motion_duration > cfg.no_motion_threshold then
    [{ type := .NO_MOTION,
       message := "No motion for an extended period",
       confidence := min (no_motion_duration / cfg.no_motion_threshold) 1,
       timestamp := now, frame := some frame }]
  else []

/-- `MotionDetector._check_low_activity`. -/
def MotionState.check_low_activity (st : MotionState) (frame : Frame)
    (now : Time) : List Alert :=
  if pyFalsyQ st.baseline_motion ∨ st.motion_history.length ≤ 100 then []
  else
    let recent_avg := npMean (lastN 100 st.motion_history)
    if recent_avg < st.baseline_motion.getD 0 * (3/10) then
      [{ type := .LOW_ACTIVITY,
         message := "Activity levels significantly below normal",
         confidence := 6/10,
         timestamp := now, frame := some frame }]
    else []

/-- The body of `MotionDetector.process` after the grayscale/blur
preprocessing step produced `gray`. -/
def MotionState.processGray (cfg : DetectorConfig) (st : MotionState)
    (now : Time) (frame : Frame) (gray : Grid) : MotionState × List Alert :=
  match st.prev_frame with
  | none => ({ st with prev_frame := some gray }, [])
  | some prev =>
    let motion_level := computeMotionLevel prev gray
    let st1 := { st with
      prev_frame := some gray
      motion_history := dequeAppend 1000 st.motion_history motion_level }
    let st2 := st1.update_baseline cfg
    let sensitivity_threshold := ((100 - cfg.motion_sensitivity : ℤ) : ℚ) / 10
    let (st3, spike_alerts) :=
      if motion_level > sensitivity_threshold then
        ({ st2 with last_motion_time := now },
         st2.check_motion_spikes motion_level frame now)
      else (st2, [])
    (st3, spike_alerts ++ st3.check_no_motion cfg frame now
      ++ st3.check_low_activity frame now)

/-- `MotionDetector.process`: grayscale the frame, blur it, then run the
motion-analysis body. -/
def MotionState.process (blur : Grid → Grid) (cfg : DetectorConfig)
    (st : MotionState) (now : Time) (frame : Frame) : MotionState × List Alert :=
  st.processGray cfg now frame (blur (cvtGray frame))

/-- Feed a sequence of timed frames to a `MotionDetector`, returning the
final state and the alerts of the last processed frame. -/
def motionRun (blur : Grid → Grid) (cfg : DetectorConfig) (st : MotionState) :
    List (Time × Frame) → MotionState × List Alert
  | [] => (st, [])
  | [(t, f)] => st.process blur cfg t f
  | (t, f) :: x :: rest =>
      motionRun blur cfg (st.process blur cfg t f).1 (x :: rest)

/-! ## CoolMomentDetector (`src/detector.py`)

`_compute_activity` is `np.std` of the grayscale frame — an irrational
square root — so the measurement is kept as an abstract parameter
`activity : Frame → ℚ`; none of the claims depend on its value. -/

/-- `CoolMomentDetector` running state (`cooldown` is fixed to 300 at
construction). -/
structure CoolState where
  activity_history : List ℚ
  baseline_activity : Option ℚ
  last_cool_moment : Time
  cooldown : ℚ
deriving DecidableEq, Repr

/-- `CoolMomentDetector.__init__`. -/
def CoolState.init : CoolState :=
  { activity_history := [], baseline_activity := none,
    last_cool_moment := 0, cooldown := 300 }

/-- `CoolMomentDetector._establish_baseline`. -/
def CoolState.establish_baseline (st : CoolState) : CoolState :=
  if st.baseline_activity = none ∧ 50 ≤ st.activity_history.length then
    { st with baseline_activity := some (npMean st.activity_history) }
  else st

/-- `CoolMomentDetector._check_interesting_activity`: emitting an alert
also refreshes the internal cooldown timer. -/
def CoolState.check_interesting (st : CoolState) (now : Time) (frame : Frame) :
    CoolState × List Alert :=
  if st.activity_history.length < 10 then (st, [])
  else
    let recent := npMean (lastN 10 st.activity_history)
    let b := st.baseline_activity.getD 0
    if recent > b * 2 then
      ({ st with last_cool_moment := now },
       [{ type := .FEEDING_FRENZY,
          message := "High activity - possible feeding frenzy!",
          confidence := 7/10, timestamp := now, frame := some frame,
          is_cool_moment := true }])
    else if recent > b * (3/2) then
      ({ st with last_cool_moment := now },
       [{ type := .INTERESTING_MOMENT,
          message := "Interesting activity spike",
          confidence := 1/2, timestamp := now, frame := some frame,
          is_cool_moment := true }])
    else (st, [])

/-- `CoolMomentDetector.process`: short-circuits (no state change, no
alerts) while within the internal cooldown, otherwise records the
activity sample, establishes the baseline and checks for interesting
activity. -/
def CoolState.process (activity : Frame → ℚ) (st : CoolState) (now : Time)
    (frame : Frame) : CoolState × List Alert :=
  if now - st.last_cool_moment < st.cooldown then (st, [])
  else
    let st1 := { st with
      activity_history := dequeAppend 100 st.activity_history (activity frame) }
    let st2 := st1.establish_baseline
    if st2.baseline_activity = none then (st2, [])
    else st2.check_interesting now frame

/-! ## FishCountDetector (`src/detector.py`)

The contour counting (`_count_fish_objects`) runs through OpenCV's
adaptive threshold and contour extraction; only the alerting layer on
top of the integer counts is needed by the claims, so the per-frame
count enters as data in the history. -/

/-- `FishCountDetector` running state. -/
structure FishCountState where
  count_history : List ℤ
  baseline_count : Option ℤ
deriving DecidableEq, Repr

/-- `FishCountDetector._establish_baseline`:
`int(np.median(history))` once 50 samples exist. -/
def FishCountState.establish_baseline (st : FishCountState) : FishCountState :=
  if st.baseline_count = none ∧ 50 ≤ st.count_history.length then
    { st with baseline_count := some (pyInt (npMedianZ st.count_history)) }
  else st

/-- `FishCountDetector._check_missing_fish`.  Note the source guard
`if not self.baseline_count` (Python falsiness) and the alert type:
the missing-fish alert is built with `AlertType.NO_MOTION`. -/
def FishCountState.check_missing_fish (cfg : DetectorConfig) (st : FishCountState)
    (frame : Frame) (now : Time) : List Alert :=
  if pyFalsyZ st.baseline_count ∨ st.count_history.length < 10 then []
  else
    let recent_count := pyInt (npMedianZ (lastN 10 st.count_history))
    let expected := if cfg.fish_count > 0 then cfg.fish_count else st.baseline_count.getD 0
    if recent_count < expected - 1 then
      [{ type := .NO_MOTION,
         message := "Fish count dropped",
         confidence := 1/2, timestamp := now, frame := some frame }]
    else []

/-- `FishCountDetector.process` with the instantaneous contour count
supplied as data. -/
def FishCountState.process (cfg : DetectorConfig) (st : FishCountState)
    (fish_count : ℤ) (frame : Frame) (now : Time) : FishCountState × List Alert :=
  let st1 := { st with count_history := dequeAppend 100 st.count_history fish_count }
  let st2 := st1.establish_baseline
  (st2, st2.check_missing_fish cfg frame now)

/-! ## FishWatcherDetector — the detection coordinator (`src/detector.py`)

The coordinator's loop is generic in the detectors it holds (a list of
`BaseDetector` instances whose `process` it calls in order).  A
detector's `process` call is modelled as a function from time, frame
and the detector's private state to either `(new state, alerts)` or a
raised exception carrying whatever state the failed call left behind. -/

/-- One detector's `process` method over private state `σ`. -/
def DetProcess (σ : Type) := Time → Frame → σ → Except σ (σ × List Alert)

/-- `last_alert_time` dictionary: insertion-ordered association list
keyed by alert type. -/
abbrev LastAlertTime := List (AlertType × Time)

/-- `dict.get(alert_type, 0)`. -/
def latGet (lat : LastAlertTime) (ty : AlertType) : Time :=
  ((lat.find? (fun p => p.1 = ty)).map (·.2)).getD 0

/-- `dict[alert_type] = now`: replace the value in place when the key is
present (dict keys are unique and keep their insertion position),
otherwise append the new key. -/
def latSet : LastAlertTime → AlertType → Time → LastAlertTime
  | [], ty, now => [(ty, now)]
  | p :: rest, ty, now =>
    if p.1 = ty then (ty, now) :: rest else p :: latSet rest ty now

/-- `FishWatcherDetector._check_cooldown`:
`time.time() - last_time > self.cooldown` (strict). -/
def check_cooldown (lat : LastAlertTime) (cooldown : ℚ) (now : Time)
    (alert_type : AlertType) : Bool :=
  now - latGet lat alert_type > cooldown

/-- The inner loop of `FishWatcherDetector.process` over one detector's
returned alerts: keep each alert passing the cooldown check and stamp
its type's last-emitted time. -/
def filterCooldown (cooldown : ℚ) (now : Time) (lat : LastAlertTime) :
    List Alert → LastAlertTime × List Alert
  | [] => (lat, [])
  | a :: rest =>
    if check_cooldown lat cooldown now a.type then
      let r := filterCooldown cooldown now (latSet lat a.type now) rest
      (r.1, a :: r.2)
    else
      filterCooldown cooldown now lat rest

/-- The outer loop of `FishWatcherDetector.process` over the detector
list: a raising detector is caught and logged (contributing no alerts
and keeping whatever state it was left in); the rest still run. -/
def runDetectors (cooldown : ℚ) (now : Time) (frame : Frame) :
    List (DetProcess σ × σ) → LastAlertTime →
    List (DetProcess σ × σ) × LastAlertTime × List Alert
  | [], lat => ([], lat, [])
  | (dp, s) :: rest, lat =>
    match dp now frame s with
    | .error s' =>
      let r := runDetectors cooldown now frame rest lat
      ((dp, s') :: r.1, r.2.1, r.2.2)
    | .ok (s', alerts) =>
      let fc := filterCooldown cooldown now lat alerts
      let r := runDetectors cooldown now frame rest fc.1
      ((dp, s') :: r.1, r.2.1, fc.2 ++ r.2.2)

/-- `FishWatcherDetector` state: the ordered detector list, the
per-type last-emitted times and the shared cooldown (default 60 s). -/
structure Coordinator (σ : Type) where
  detectors : List (DetProcess σ × σ)
  last_alert_time : LastAlertTime
  cooldown : ℚ

/-- `FishWatcherDetector.process`. -/
def Coordinator.process (c : Coordinator σ) (now : Time) (frame : Frame) :
    Coordinator σ × List Alert :=
  let (ds, lat, alerts) := runDetectors c.cooldown now frame c.detectors c.last_alert_time
  ({ c with detectors := ds, last_alert_time := lat }, alerts)

/-! ## Concrete fixtures for witnesses and counterexamples -/

/-- A 1×1 all-black BGR frame. -/
def blankFrame : Frame := constFrame 1 1 (0, 0, 0)

/-- A 1×1 all-white BGR frame. -/
def whiteFrame : Frame := constFrame 1 1 (255, 255, 255)

/-- A fixed sample alert. -/
def sampleAlert : Alert :=
  { type := .MOTION_SPIKE, message := "Unusual activity spike!",
    confidence := 1, timestamp := 0, frame := some blankFrame }

/-- A fixed NO_MOTION alert produced at `t = 60`. -/
def sampleNoMotionAlert : Alert :=
  { type := .NO_MOTION, message := "No motion for an extended period",
    confidence := 1, timestamp := 60 }

/-- A fixed `strftime`-style timestamp formatter for counterexamples. -/
def fmt0 : Time → String := fun _ => "20260101_000000"

/-- The C5 scenario input: 150 blank frames at 10 fps, then one
all-white frame. -/
def motionTestFrames : List (Time × Frame) :=
  ((List.range 150).map (fun i => ((i : ℚ) / 10, blankFrame))) ++ [(15, whiteFrame)]

/-! ## Theorems -/

/-- **C3**, counterexample.  At `max_seconds = 0.5`, `fps = 15` the
constructed buffer's capacity is `int(0.5 * 15) = 7`, while
`round(0.5 * 15) = 8`: the capacity is not `round(max_seconds × fps)`. -/
theorem C3_cex_capacity_not_round :
    (RollingBuffer.init (1/2) 15).map RollingBuffer.max_frames = some 7 ∧
    pyRound ((1/2 : ℚ) * 15) = 8 ∧
    (RollingBuffer.init (1/2) 15).map RollingBuffer.max_frames ≠
      some (pyRound ((1/2 : ℚ) * 15)).toNat := by
  refine ⟨by with_unfolding_all decide, by with_unfolding_all decide,
    by with_unfolding_all decide⟩

/-- **C3**, amended: for every `max_seconds` and `fps` accepted at
construction, the capacity equals the *truncation* `int(max_seconds × fps)`
(not `round`). -/
theorem C3_capacity_is_int_truncation (max_seconds : ℚ) (fps : ℕ)
    (rb : RollingBuffer) (h : RollingBuffer.init max_seconds fps = some rb) :
    rb.max_frames = (pyInt (max_seconds * fps)).toNat := by
  simp only [RollingBuffer.init] at h
  split at h
  · exact absurd h (by simp)
  · simp only [Option.some.injEq] at h
    rw [← h]

/-- Witness for `C3_capacity_is_int_truncation` at
`max_seconds = 0.5`, `fps = 15`. -/
theorem C3_capacity_is_int_truncation_witness :
    (⟨7, [], 0⟩ : RollingBuffer).max_frames = (pyInt ((1/2 : ℚ) * 15)).toNat :=
  C3_capacity_is_int_truncation (1/2) 15 ⟨7, [], 0⟩ (by with_unfolding_all decide)

/-- **C8**: while within the `CoolMomentDetector`'s own 300-second
cooldown, `process` returns no alerts and leaves the state unchanged —
no activity sample is recorded and the baseline is untouched. -/
theorem C8_cool_moment_cooldown_short_circuit (activity : Frame → ℚ)
    (st : CoolState) (now : Time) (frame : Frame)
    (h300 : st.cooldown = 300) (h : now - st.last_cool_moment < 300) :
    CoolState.process activity st now frame = (st, []) := by
  rw [CoolState.process, if_pos (by rw [h300]; exact h)]

/-- Witness for `C8_cool_moment_cooldown_short_circuit`: a fresh
detector whose last cool moment was stamped 100 s before `now`. -/
theorem C8_cool_moment_cooldown_short_circuit_witness :
    CoolState.process (fun _ => 0) CoolState.init 100 blankFrame =
      (CoolState.init, []) :=
  C8_cool_moment_cooldown_short_circuit (fun _ => 0) CoolState.init 100 blankFrame
    (by with_unfolding_all decide) (by with_unfolding_all decide)

/-! ### RollingBuffer invariants (C6) -/

/-- Retained-order relation on buffered frames: nondecreasing timestamps
and strictly increasing sequence numbers. -/
def BufOrd (a b : BufferedFrame) : Prop :=
  a.timestamp ≤ b.timestamp ∧ a.frame_number < b.frame_number

instance : DecidableRel BufOrd := fun a b => by
  rw [BufOrd]; infer_instance

lemma dequeAppend_length (m : ℕ) (l : List α) (x : α) :
    (dequeAppend m l x).length = min (l.length + 1) m := by
  simp only [dequeAppend, List.length_drop, List.length_append, List.length_cons,
    List.length_nil]
  omega

lemma add_buffer_length (rb : RollingBuffer) (now : Time) (f : Frame) :
    (rb.add now f).buffer.length = min (rb.buffer.length + 1) rb.max_frames := by
  simp [RollingBuffer.add, dequeAppend_length]

lemma add_max_frames (rb : RollingBuffer) (now : Time) (f : Frame) :
    (rb.add now f).max_frames = rb.max_frames := rfl

lemma addAll_length : ∀ (l : List (Time × Frame)) (rb : RollingBuffer),
    rb.buffer.length ≤ rb.max_frames →
    (rb.addAll l).buffer.length = min (rb.buffer.length + l.length) rb.max_frames
  | [], rb, h => by
    simp only [RollingBuffer.addAll, List.foldl_nil, List.length_nil, Nat.add_zero]
    omega
  | (t, f) :: rest, rb, h => by
    have h1 := add_buffer_length rb t f
    have h2 := addAll_length rest (rb.add t f) (by rw [h1, add_max_frames]; omega)
    simp only [RollingBuffer.addAll, List.foldl_cons] at h2 ⊢
    rw [h2, h1, add_max_frames, List.length_cons]
    omega

/-- The invariant carried through a run of `add`s: every retained frame
has a sequence number below the counter and a timestamp at most `t`,
and the retained frames are ordered. -/
def BufInv (rb : RollingBuffer) (t : Time) : Prop :=
  (∀ x ∈ rb.buffer, x.frame_number < rb.frame_count ∧ x.timestamp ≤ t) ∧
  rb.buffer.Pairwise BufOrd

lemma add_inv (rb : RollingBuffer) (t now : Time) (f : Frame)
    (h : BufInv rb t) (hle : t ≤ now) : BufInv (rb.add now f) now := by
  obtain ⟨hmem, hpw⟩ := h
  constructor
  · intro x hx
    simp only [RollingBuffer.add, dequeAppend] at hx
    have hx' := List.mem_of_mem_drop hx
    rcases List.mem_append.1 hx' with hx'' | hx''
    · obtain ⟨h1, h2⟩ := hmem x hx''
      exact ⟨Nat.lt_succ_of_lt h1, le_trans h2 hle⟩
    · simp only [List.mem_singleton] at hx''
      subst hx''
      exact ⟨Nat.lt_succ_self _, le_refl _⟩
  · simp only [RollingBuffer.add, dequeAppend]
    apply List.Pairwise.drop
    rw [List.pairwise_append]
    refine ⟨hpw, List.pairwise_singleton _ _, ?_⟩
    intro x hx y hy
    simp only [List.mem_singleton] at hy
    subst hy
    obtain ⟨h1, h2⟩ := hmem x hx
    exact ⟨le_trans h2 hle, h1⟩

lemma addAll_pairwise : ∀ (l : List (Time × Frame)) (rb : RollingBuffer) (t : Time),
    BufInv rb t → l.Pairwise (fun a b => a.1 ≤ b.1) → (∀ p ∈ l, t ≤ p.1) →
    (rb.addAll l).buffer.Pairwise BufOrd
  | [], rb, t, hinv, _, _ => hinv.2
  | (t₀, f₀) :: rest, rb, t, hinv, hmono, hlb => by
    simp only [RollingBuffer.addAll, List.foldl_cons]
    have h0 : t ≤ t₀ := hlb _ (List.mem_cons_self _ _)
    have hinv' := add_inv rb t t₀ f₀ hinv h0
    have hmono' := List.Pairwise.of_cons hmono
    have hrest : ∀ p ∈ rest, t₀ ≤ p.1 := fun p hp =>
      (List.pairwise_cons.1 hmono).1 p hp
    exact addAll_pairwise rest (rb.add t₀ f₀) t₀ hinv' hmono' hrest

lemma add_full_evicts (rb : RollingBuffer) (now : Time) (f : Frame)
    (hfull : rb.buffer.length = rb.max_frames) (hpos : 0 < rb.max_frames) :
    (rb.add now f).buffer =
      rb.buffer.tail ++ [⟨f, now, rb.frame_count⟩] := by
  obtain ⟨m, buf, fc⟩ := rb
  simp only at hfull hpos
  simp only [RollingBuffer.add, dequeAppend]
  have hk : buf.length + 1 - m = 1 := by omega
  rw [List.length_append, List.length_singleton, hk]
  rcases buf with _ | ⟨b, bs⟩
  · simp at hfull; omega
  · simp

/-- **C6**: starting from a fresh buffer of capacity `C` and feeding `N`
frames with nondecreasing capture times, the retained length is
`min N C`, `get_all()` is ordered ascending by timestamp and sequence
number, and an `add` on any full buffer evicts exactly the oldest
entry. -/
theorem C6_rolling_buffer_invariants (C : ℕ) (l : List (Time × Frame))
    (hmono : l.Pairwise (fun a b => a.1 ≤ b.1)) :
    ((RollingBuffer.addAll ⟨C, [], 0⟩ l).buffer.length = min l.length C) ∧
    ((RollingBuffer.addAll ⟨C, [], 0⟩ l).get_all.Pairwise BufOrd) ∧
    (∀ (rb : RollingBuffer) (now : Time) (f : Frame),
      rb.buffer.length = rb.max_frames → 0 < rb.max_frames →
      (rb.add now f).buffer = rb.buffer.tail ++ [⟨f, now, rb.frame_count⟩]) := by
  refine ⟨?_, ?_, fun rb now f h1 h2 => add_full_evicts rb now f h1 h2⟩
  · have := addAll_length l ⟨C, [], 0⟩ (by simp)
    simpa using this
  · rcases l with _ | ⟨⟨t₀, f₀⟩, rest⟩
    · simp [RollingBuffer.addAll, RollingBuffer.get_all]
    · exact addAll_pairwise _ _ t₀ ⟨by simp, by simp⟩ hmono
        (fun p hp => by
          rcases List.mem_cons.1 hp with h | h
          · rw [h]
          · exact (List.pairwise_cons.1 hmono).1 p h)

/-- Witness for `C6_rolling_buffer_invariants`: capacity 2, three adds
at times 0, 1, 2. -/
theorem C6_rolling_buffer_invariants_witness :
    ((RollingBuffer.addAll ⟨2, [], 0⟩
        [(0, blankFrame), (1, blankFrame), (2, whiteFrame)]).buffer.length =
      min 3 2) ∧
    ((RollingBuffer.addAll ⟨2, [], 0⟩
        [(0, blankFrame), (1, blankFrame), (2, whiteFrame)]).get_all.Pairwise BufOrd) ∧
    (∀ (rb : RollingBuffer) (now : Time) (f : Frame),
      rb.buffer.length = rb.max_frames → 0 < rb.max_frames →
      (rb.add now f).buffer = rb.buffer.tail ++ [⟨f, now, rb.frame_count⟩]) := by
  have := C6_rolling_buffer_invariants 2
    [(0, blankFrame), (1, blankFrame), (2, whiteFrame)]
    (by with_unfolding_all decide)
  simpa using this

/-! ### Coordinator cooldown (C4) -/

lemma latGet_latSet (lat : LastAlertTime) (ty : AlertType) (v : Time) :
    latGet (latSet lat ty v) ty = v := by
  induction lat with
  | nil => simp [latSet, latGet, List.find?]
  | cons p rest ih =>
    by_cases hp : p.1 = ty
    · simp [latSet, latGet, List.find?, hp]
    · simp only [latSet, if_neg hp]
      simpa [latGet, List.find?, hp] using ih

/-- **C4**, counterexample.  With the default 60 s cooldown and a
NO_MOTION alert last emitted at `t = 0`, a candidate NO_MOTION alert
produced at exactly `t + 60` satisfies the claim's re-emission condition
(`time ≥ t + 60`) yet is dropped: `_check_cooldown` requires the elapsed
time to be *strictly* greater than the cooldown. -/
theorem C4_cex_boundary_candidate_dropped :
    (0 : ℚ) + 60 ≤ 60 ∧
    (Coordinator.process
        ⟨[(fun _ _ _ => Except.ok ((), [sampleNoMotionAlert]), ())],
         [(AlertType.NO_MOTION, 0)], 60⟩ 60 blankFrame).2 = [] := by
  constructor
  · norm_num
  · with_unfolding_all decide

/-- **C4**, amended: with the default 60 s cooldown, after an alert of
type `T` was last emitted at time `t`, a candidate alert of type `T`
produced at any time up to and including `t + 60` is dropped (leaving
the last-emitted map untouched), and a candidate produced *strictly
after* `t + 60` is emitted again (stamping its type's last-emitted
time). -/
theorem C4_cooldown_drop_and_reemit (σ : Type) (dp : DetProcess σ) (s s' : σ)
    (lat : LastAlertTime) (t now : Time) (fr : Frame) (a : Alert)
    (hlast : latGet lat a.type = t)
    (hdp : dp now fr s = Except.ok (s', [a])) :
    (now ≤ t + 60 →
      (Coordinator.process ⟨[(dp, s)], lat, 60⟩ now fr).2 = [] ∧
      (Coordinator.process ⟨[(dp, s)], lat, 60⟩ now fr).1.last_alert_time = lat) ∧
    (t + 60 < now →
      (Coordinator.process ⟨[(dp, s)], lat, 60⟩ now fr).2 = [a] ∧
      latGet (Coordinator.process ⟨[(dp, s)], lat, 60⟩ now fr).1.last_alert_time
        a.type = now) := by
  constructor
  · intro h
    have hcc : check_cooldown lat 60 now a.type = false := by
      simp only [check_cooldown, hlast, decide_eq_false_iff_not, not_lt]
      linarith
    simp [Coordinator.process, runDetectors, hdp, filterCooldown, hcc]
  · intro h
    have hcc : check_cooldown lat 60 now a.type = true := by
      simp only [check_cooldown, hlast, decide_eq_true_eq]
      linarith
    simp [Coordinator.process, runDetectors, hdp, filterCooldown, hcc, latGet_latSet]

/-- Witness for `C4_cooldown_drop_and_reemit`: a single detector
emitting one MOTION_SPIKE alert, last emitted at `t = 0`, candidate at
`now = 100`. -/
theorem C4_cooldown_drop_and_reemit_witness :
    ((100 : ℚ) ≤ 0 + 60 →
      (Coordinator.process
          ⟨[(fun _ _ _ => Except.ok ((), [sampleAlert]), ())],
           [(AlertType.MOTION_SPIKE, 0)], 60⟩ 100 blankFrame).2 = [] ∧
      (Coordinator.process
          ⟨[(fun _ _ _ => Except.ok ((), [sampleAlert]), ())],
           [(AlertType.MOTION_SPIKE, 0)], 60⟩ 100 blankFrame).1.last_alert_time =
        [(AlertType.MOTION_SPIKE, 0)]) ∧
    ((0 : ℚ) + 60 < 100 →
      (Coordinator.process
          ⟨[(fun _ _ _ => Except.ok ((), [sampleAlert]), ())],
           [(AlertType.MOTION_SPIKE, 0)], 60⟩ 100 blankFrame).2 = [sampleAlert] ∧
      latGet (Coordinator.process
          ⟨[(fun _ _ _ => Except.ok ((), [sampleAlert]), ())],
           [(AlertType.MOTION_SPIKE, 0)], 60⟩ 100 blankFrame).1.last_alert_time
        sampleAlert.type = 100) :=
  C4_cooldown_drop_and_reemit Unit (fun _ _ _ => Except.ok ((), [sampleAlert]))
    () () [(AlertType.MOTION_SPIKE, 0)] 0 100 blankFrame sampleAlert
    (by with_unfolding_all decide) rfl

/-! ### Detector-fault isolation (C9) -/

lemma runDetectors_append (cd : ℚ) (now : Time) (fr : Frame)
    (l₁ l₂ : List (DetProcess σ × σ)) (lat : LastAlertTime) :
    runDetectors cd now fr (l₁ ++ l₂) lat =
      ((runDetectors cd now fr l₁ lat).1 ++
        (runDetectors cd now fr l₂ (runDetectors cd now fr l₁ lat).2.1).1,
       (runDetectors cd now fr l₂ (runDetectors cd now fr l₁ lat).2.1).2.1,
       (runDetectors cd now fr l₁ lat).2.2 ++
         (runDetectors cd now fr l₂ (runDetectors cd now fr l₁ lat).2.1).2.2) := by
  induction l₁ generalizing lat with
  | nil => simp [runDetectors]
  | cons hd tl ih =>
    obtain ⟨dp, s⟩ := hd
    cases hds : dp now fr s with
    | error s' => simp [runDetectors, hds, ih]
    | ok r => simp [runDetectors, hds, ih]

/-- **C9**: a raising detector does not abort the others.  The
coordinator's tick over `pre ++ [raiser] ++ post` equals the tick that
runs `pre` and `post` exactly as usual, with the raiser contributing no
alerts and no cooldown-map change; its slot keeps whatever state the
failed call left behind, and the detector list survives intact, so the
next tick invokes every detector again. -/
theorem C9_detector_fault_isolation (σ : Type) (pre post : List (DetProcess σ × σ))
    (dp : DetProcess σ) (s s' : σ) (lat : LastAlertTime) (cd : ℚ)
    (now : Time) (fr : Frame)
    (hdp : dp now fr s = Except.error s') :
    Coordinator.process ⟨pre ++ (dp, s) :: post, lat, cd⟩ now fr =
      (⟨(Coordinator.process ⟨pre, lat, cd⟩ now fr).1.detectors ++
          (dp, s') :: (Coordinator.process
            ⟨post, (Coordinator.process ⟨pre, lat, cd⟩ now fr).1.last_alert_time, cd⟩
            now fr).1.detectors,
        (Coordinator.process
          ⟨post, (Coordinator.process ⟨pre, lat, cd⟩ now fr).1.last_alert_time, cd⟩
          now fr).1.last_alert_time,
        cd⟩,
       (Coordinator.process ⟨pre, lat, cd⟩ now fr).2 ++
         (Coordinator.process
           ⟨post, (Coordinator.process ⟨pre, lat, cd⟩ now fr).1.last_alert_time, cd⟩
           now fr).2) := by
  simp [Coordinator.process, runDetectors_append, runDetectors, hdp]

/-- A healthy detector over ℕ state: increments its counter, no alerts. -/
def okDet : DetProcess ℕ := fun _ _ n => Except.ok (n + 1, [])

/-- A raising detector over ℕ state: always raises after mutating its
state to 7. -/
def badDet : DetProcess ℕ := fun _ _ _ => Except.error 7

/-- Witness for `C9_detector_fault_isolation`: one healthy detector on
each side of a raising one. -/
theorem C9_detector_fault_isolation_witness :
    Coordinator.process ⟨[(okDet, 0)] ++ (badDet, 3) :: [(okDet, 10)], [], 60⟩
        5 blankFrame =
      (⟨(Coordinator.process ⟨[(okDet, 0)], [], 60⟩ 5 blankFrame).1.detectors ++
          (badDet, 7) ::
            (Coordinator.process
              ⟨[(okDet, 10)],
               (Coordinator.process ⟨[(okDet, 0)], [], 60⟩ 5 blankFrame).1.last_alert_time,
               60⟩ 5 blankFrame).1.detectors,
        (Coordinator.process
          ⟨[(okDet, 10)],
           (Coordinator.process ⟨[(okDet, 0)], [], 60⟩ 5 blankFrame).1.last_alert_time,
           60⟩ 5 blankFrame).1.last_alert_time,
        60⟩,
       (Coordinator.process ⟨[(okDet, 0)], [], 60⟩ 5 blankFrame).2 ++
         (Coordinator.process
           ⟨[(okDet, 10)],
            (Coordinator.process ⟨[(okDet, 0)], [], 60⟩ 5 blankFrame).1.last_alert_time,
            60⟩ 5 blankFrame).2) :=
  C9_detector_fault_isolation ℕ [(okDet, 0)] [(okDet, 10)] badDet 3 7 [] 60 5
    blankFrame rfl

/-! ### Shared NO_MOTION alert type (C10) -/

/-- **C10**: the missing-fish alert built by
`FishCountDetector._check_missing_fish` carries `AlertType.NO_MOTION` —
the very type `MotionDetector._check_no_motion` uses — so once either
alert is emitted (stamping `NO_MOTION`'s last-emitted time), any
candidate of that type arriving within the 60 s cooldown window is
dropped by the coordinator's per-type cooldown. -/
lemma check_missing_fish_type (cfg : DetectorConfig) (st : FishCountState)
    (fr : Frame) (now : Time) :
    ∀ a ∈ FishCountState.check_missing_fish cfg st fr now,
      a.type = AlertType.NO_MOTION := by
  intro a ha
  simp only [FishCountState.check_missing_fish] at ha
  split at ha
  · exact absurd ha (List.not_mem_nil a)
  · split at ha <;> split at ha <;>
      first
        | (rw [List.mem_singleton] at ha; rw [ha])
        | exact absurd ha (List.not_mem_nil a)

lemma check_no_motion_type (cfg : DetectorConfig) (st : MotionState)
    (fr : Frame) (now : Time) :
    ∀ a ∈ MotionState.check_no_motion cfg st fr now,
      a.type = AlertType.NO_MOTION := by
  intro a ha
  simp only [MotionState.check_no_motion] at ha
  split at ha
  · rw [List.mem_singleton] at ha
    rw [ha]
  · exact absurd ha (List.not_mem_nil a)

theorem C10_missing_fish_shares_no_motion_type
    (cfg cfg' : DetectorConfig) (st : FishCountState) (st' : MotionState)
    (fr fr' : Frame) (now now' now₂ : Time) (a₁ a₂ a₃ : Alert)
    (lat : LastAlertTime)
    (h1 : a₁ ∈ FishCountState.check_missing_fish cfg st fr now)
    (h2 : a₂ ∈ MotionState.check_no_motion cfg' st' fr' now')
    (h3 : a₃.type = AlertType.NO_MOTION)
    (h4 : now₂ - latGet lat AlertType.NO_MOTION ≤ 60) :
    a₁.type = AlertType.NO_MOTION ∧ a₂.type = AlertType.NO_MOTION ∧
    a₁.type = a₂.type ∧
    filterCooldown 60 now₂ lat [a₃] = (lat, []) := by
  have ht1 := check_missing_fish_type cfg st fr now a₁ h1
  have ht2 := check_no_motion_type cfg' st' fr' now' a₂ h2
  refine ⟨ht1, ht2, ht1.trans ht2.symm, ?_⟩
  have hcc : check_cooldown lat 60 now₂ a₃.type = false := by
    simp only [check_cooldown, h3, decide_eq_false_iff_not, not_lt]
    linarith
  simp [filterCooldown, hcc]

/-- Witness for `C10_missing_fish_shares_no_motion_type`: a fish-count
state whose last ten counts dropped to 0 against a baseline of 5, a
fresh motion detector 400 s after its last motion, and a NO_MOTION
candidate arriving 50 s after the type was last emitted. -/
theorem C10_missing_fish_shares_no_motion_type_witness :
    ((FishCountState.check_missing_fish {} ⟨List.replicate 10 0, some 5⟩
        blankFrame 400).head?.getD sampleNoMotionAlert).type = AlertType.NO_MOTION ∧
    ((MotionState.check_no_motion {} (MotionState.init 0) blankFrame 400).head?.getD
        sampleNoMotionAlert).type = AlertType.NO_MOTION ∧
    ((FishCountState.check_missing_fish {} ⟨List.replicate 10 0, some 5⟩
        blankFrame 400).head?.getD sampleNoMotionAlert).type =
      ((MotionState.check_no_motion {} (MotionState.init 0) blankFrame 400).head?.getD
        sampleNoMotionAlert).type ∧
    filterCooldown 60 400 [(AlertType.NO_MOTION, 350)] [sampleNoMotionAlert] =
      ([(AlertType.NO_MOTION, 350)], []) := by
  have h := C10_missing_fish_shares_no_motion_type {} {}
    ⟨List.replicate 10 0, some 5⟩ (MotionState.init 0) blankFrame blankFrame
    400 400 400
    ((FishCountState.check_missing_fish {} ⟨List.replicate 10 0, some 5⟩
        blankFrame 400).head?.getD sampleNoMotionAlert)
    ((MotionState.check_no_motion {} (MotionState.init 0) blankFrame 400).head?.getD
        sampleNoMotionAlert)
    sampleNoMotionAlert [(AlertType.NO_MOTION, 350)]
    (by with_unfolding_all decide)
    (by with_unfolding_all decide)
    (by with_unfolding_all decide)
    (by with_unfolding_all decide)
  exact h

/-! ### ClipRecorder finalization (C1, C2, C7) -/

/-- A `ClipRecorder` with its constructor defaults
(`pre_roll = 10`, `post_roll = 30`). -/
def freshRecorder : ClipRecorder := ClipRecorder.init

/-- A recorder mid-recording: triggered at `t = 0` with `sampleAlert`
and no accumulated frames yet. -/
def recordingAt0 : ClipRecorder :=
  { freshRecorder with
    recording := true, recording_start := some 0,
    current_alert := some sampleAlert }

/-- **C1**, counterexample.  With the default `pre_roll = 10` and
`post_roll = 30`, an `add_frame` call 30 s after recording started —
strictly less than `pre_roll + post_roll = 40` — already finalizes:
the clip is written and the recorder leaves the Recording state, against
the claim's threshold. -/
theorem C1_cex_finalizes_before_total_duration :
    (30 : ℚ) - 0 < recordingAt0.pre_roll + recordingAt0.post_roll ∧
    (recordingAt0.add_frame fmt0 30 blankFrame).1.recording = false ∧
    (recordingAt0.add_frame fmt0 30 blankFrame).2.1 ≠ none ∧
    (recordingAt0.add_frame fmt0 30 blankFrame).2.2 ≠ [] := by
  with_unfolding_all decide

/-- **C1**, amended: `add_frame` finalizes (writes the accumulated
frames and resets to Idle) exactly when the elapsed time since
recording-start is at least `post_roll` — the pre-roll seconds come from
buffered history, not from the live recording window — and for elapsed
time strictly below `post_roll` it stays Recording, appends the frame
and writes nothing. -/
theorem C1_add_frame_finalizes_at_post_roll (fmt : Time → String)
    (r : ClipRecorder) (t0 now : Time) (f : Frame)
    (hrec : r.recording = true) (hstart : r.recording_start = some t0) :
    (r.post_roll ≤ now - t0 →
      r.add_frame fmt now f =
        ({ r with recording := false, current_frames := [], current_alert := none },
         some (r.savePath fmt now),
         [(r.savePath fmt now, r.current_frames ++ [f])])) ∧
    (now - t0 < r.post_roll →
      r.add_frame fmt now f =
        ({ r with current_frames := r.current_frames ++ [f] }, none, [])) := by
  constructor
  · intro h
    simp [ClipRecorder.add_frame, ClipRecorder.saveClip, ClipRecorder.savePath,
      hrec, hstart, h]
  · intro h
    simp [ClipRecorder.add_frame, hrec, hstart, not_le.2 h]

/-- Witness for `C1_add_frame_finalizes_at_post_roll` on the default
recorder triggered at `t = 0`, with a frame fed at `now = 35`. -/
theorem C1_add_frame_finalizes_at_post_roll_witness :
    (recordingAt0.post_roll ≤ (35 : ℚ) - 0 →
      recordingAt0.add_frame fmt0 35 blankFrame =
        ({ recordingAt0 with
            recording := false
            current_frames := []
            current_alert := none },
         some (recordingAt0.savePath fmt0 35),
         [(recordingAt0.savePath fmt0 35, recordingAt0.current_frames ++ [blankFrame])])) ∧
    ((35 : ℚ) - 0 < recordingAt0.post_roll →
      recordingAt0.add_frame fmt0 35 blankFrame =
        ({ recordingAt0 with
            current_frames := recordingAt0.current_frames ++ [blankFrame] },
         none, [])) :=
  C1_add_frame_finalizes_at_post_roll fmt0 recordingAt0 0 35 blankFrame
    (by with_unfolding_all decide) (by with_unfolding_all decide)

/-- **C2**: the watch loop destructures
`clip_path, alert = self.recorder.add_frame(frame)`, but `add_frame`
returns an `Optional[str]`: while the recording is still in progress the
return value is `None`, whose 2-tuple unpacking raises a `TypeError`
(and at finalization it is a path string, whose unpacking raises a
`ValueError` unless the path happens to have exactly two characters) —
the return value is never the claimed `(path, alert)` pair. -/
theorem C2_add_frame_return_not_unpackable :
    (recordingAt0.add_frame fmt0 1 blankFrame).2.1 = none ∧
    pyUnpack2 (recordingAt0.add_frame fmt0 1 blankFrame).2.1 =
      Except.error "TypeError: cannot unpack non-iterable NoneType object" ∧
    pyUnpack2 (recordingAt0.add_frame fmt0 30 blankFrame).2.1 =
      Except.error "ValueError: unexpected number of values to unpack" := by
  with_unfolding_all decide

/-- **C7**, counterexample.  Starting a recording from an empty buffer
seeds zero frames; with zero `add_frame` calls nothing ever finalizes,
so after the post-roll elapses the recorder is still flagged Recording —
not reset to Idle as claimed — and even a direct finalize on the empty
frame list, while skipping the write, leaves the triggering alert in
place rather than clearing it. -/
theorem C7_cex_no_full_reset_on_empty :
    ((freshRecorder.start_recording 0 ⟨150, [], 0⟩ sampleAlert).recording = true) ∧
    ((freshRecorder.start_recording 0 ⟨150, [], 0⟩ sampleAlert).current_frames = []) ∧
    (((freshRecorder.start_recording 0 ⟨150, [], 0⟩ sampleAlert).saveClip fmt0
        100).1.current_alert = some sampleAlert) ∧
    (((freshRecorder.start_recording 0 ⟨150, [], 0⟩ sampleAlert).saveClip fmt0
        100).1.current_alert ≠ none) ∧
    (((freshRecorder.start_recording 0 ⟨150, [], 0⟩ sampleAlert).saveClip fmt0
        100).2.2 = []) := by
  with_unfolding_all decide

/-- **C7**, amended: a recording started from an empty buffer seeds zero
frames and stays flagged Recording; the finalize step, when invoked on
an empty frame list, skips the video write, returns `""` and clears only
the `recording` flag — the triggering alert is left in place (state
otherwise unchanged), so the reset to Idle is partial, not full. -/
theorem C7_empty_finalize_skips_write (fmt : Time → String) (r : ClipRecorder)
    (now : Time) (h : r.current_frames = []) :
    r.saveClip fmt now = ({ r with recording := false }, "", []) ∧
    (∀ (rr : ClipRecorder) (now' : Time) (buf : RollingBuffer) (al : Alert),
      rr.recording = false → buf.buffer = [] →
      (rr.start_recording now' buf al).current_frames = [] ∧
      (rr.start_recording now' buf al).recording = true) := by
  constructor
  · simp [ClipRecorder.saveClip, h]
  · intro rr now' buf al h1 h2
    simp [ClipRecorder.start_recording, h1, RollingBuffer.get_recent, h2]

/-- Witness for `C7_empty_finalize_skips_write` on a recorder holding no
frames. -/
theorem C7_empty_finalize_skips_write_witness :
    ({ recordingAt0 with current_frames := [] } : ClipRecorder).saveClip fmt0 100 =
      ({ { recordingAt0 with current_frames := [] } with recording := false },
        "", []) ∧
    (∀ (rr : ClipRecorder) (now' : Time) (buf : RollingBuffer) (al : Alert),
      rr.recording = false → buf.buffer = [] →
      (rr.start_recording now' buf al).current_frames = [] ∧
      (rr.start_recording now' buf al).recording = true) :=
  C7_empty_finalize_skips_write fmt0 { recordingAt0 with current_frames := [] }
    100 rfl

/-! ### MotionDetector spike scenario (C5) -/

lemma motionRun_blur_congr (blur₁ blur₂ : Grid → Grid) (cfg : DetectorConfig) :
    ∀ (frames : List (Time × Frame)) (st : MotionState),
      (∀ p ∈ frames, blur₁ (cvtGray p.2) = blur₂ (cvtGray p.2)) →
      motionRun blur₁ cfg st frames = motionRun blur₂ cfg st frames
  | [], _, _ => rfl
  | [(t, f)], st, h => by
    simp only [motionRun, MotionState.process]
    rw [h (t, f) (List.mem_singleton_self _)]
  | (t, f) :: x :: rest, st, h => by
    simp only [motionRun, MotionState.process]
    rw [h (t, f) (List.mem_cons_self _ _)]
    exact motionRun_blur_congr blur₁ blur₂ cfg (x :: rest) _
      (fun p hp => h p (List.mem_cons_of_mem _ hp))

set_option maxRecDepth 100000 in
/-- **C5**: a fresh `MotionDetector` with the default configuration fed
150 identical blank frames (at 10 fps) and then one all-white frame
emits, on the white frame, exactly one alert of type ERRATIC_SWIMMING
(which is one of the two claimed types): the baseline — recomputed after
appending the white frame's 100 % motion level — is `100/150 ≈ 0.67`,
and `100 > 5 × baseline`.  The statement holds for every Gaussian blur
`blur`, assumed only to fix the two constant grids that occur (any
normalized convolution with reflecting borders does). -/
theorem C5_motion_spike_on_white_frame (blur : Grid → Grid)
    (h0 : blur (constGrid 1 1 0) = constGrid 1 1 0)
    (h255 : blur (constGrid 1 1 255) = constGrid 1 1 255) :
    (motionRun blur {} (MotionState.init 0) motionTestFrames).2.map Alert.type =
      [AlertType.ERRATIC_SWIMMING] := by
  have hc : motionRun blur {} (MotionState.init 0) motionTestFrames =
      motionRun id {} (MotionState.init 0) motionTestFrames := by
    apply motionRun_blur_congr
    intro p hp
    simp only [motionTestFrames, List.mem_append, List.mem_map,
      List.mem_range, List.mem_singleton] at hp
    rcases hp with ⟨i, _, rfl⟩ | rfl
    · show blur (cvtGray blankFrame) = id (cvtGray blankFrame)
      rw [show cvtGray blankFrame = constGrid 1 1 0 from rfl, h0]
      rfl
    · show blur (cvtGray whiteFrame) = id (cvtGray whiteFrame)
      rw [show cvtGray whiteFrame = constGrid 1 1 255 from rfl, h255]
      rfl
  rw [hc]
  with_unfolding_all decide

/-- Witness for `C5_motion_spike_on_white_frame` with the identity
blur. -/
theorem C5_motion_spike_on_white_frame_witness :
    (motionRun id {} (MotionState.init 0) motionTestFrames).2.map Alert.type =
      [AlertType.ERRATIC_SWIMMING] :=
  C5_motion_spike_on_white_frame id rfl rfl

end FishWatcher
